import Mathlib

/-!
Verification of the horsetycoon startup/readiness layer.

Shallow embedding of the relevant parts of the repository:
- `src/js/utils/assetLoader.js` (AssetLoader: loadAllAssets, loadSound,
  updateLoadingProgress, showMainMenu),
- `src/js/main.js` (HorseTycoon constructor, setupGameLoop, updateUI, and the
  DOMContentLoaded startup handler),
- `src/js/ui/uiController.js` (UIController.showScreen, handleGameStart),
- `src/unnamed/part_000` (the extended UIController with a `ready` flag, the
  event-listener retry scheduler in setupEventListeners, initializeScreens).

Promises are modelled by explicit settlement values; the DOM by explicit
registries of display styles; timer schedulers by fuel-bounded recursion on the
round counter.
-/

/- ===================== Asset preload pipeline ===================== -/

/-- Settlement state of one `loadSound` promise. -/
inductive LoadResult
  | resolved
  | rejected
  | pending
deriving DecidableEq

/-- Settlement state of the aggregate `Promise.all` in `loadAllAssets`. -/
inductive AllResult
  | resolved
  | rejected
  | pending
deriving DecidableEq

/-- The hard-coded catalog of `loadAllAssets` (assetLoader.js lines 20-29). -/
def soundFiles : List String :=
  ["background-music-224633.mp3",
   "mystery-music-loop-226835.mp3",
   "arcade-horse-racing-32871.mp3",
   "horse-snort-95874.mp3",
   "horse-footsteps-189992.mp3",
   "horse-footsteps-type-1-235999.mp3",
   "violin-music-64019.mp3",
   "relaxing-guitar-loop-v5-245859.mp3"]

/-- `Promise.all` over the per-entry settlement states: it rejects if any entry
rejected (even while others are still pending), is pending if no entry rejected
but some entry is pending, and resolves once every entry resolved. -/
def promiseAll (rs : List LoadResult) : AllResult :=
  if LoadResult.rejected ∈ rs then AllResult.rejected
  else if LoadResult.pending ∈ rs then AllResult.pending
  else AllResult.resolved

/-- What a caller of `loadAllAssets` observes (assetLoader.js lines 19-49):
the async function awaits `Promise.all` inside try/catch; on success it calls
`showMainMenu()`; on rejection the catch block writes the error message into
the loading-text element and the function then returns normally, so the
returned promise settles as resolved in that case too. -/
structure LoadAllObs where
  settled : AllResult
  errorDisplayed : Bool
  mainMenuShown : Bool
deriving DecidableEq

/-- Observable outcome of `loadAllAssets` as a function of the per-entry
settlement states. -/
def loadAllAssetsObs (rs : List LoadResult) : LoadAllObs :=
  match promiseAll rs with
  | AllResult.resolved => ⟨AllResult.resolved, false, true⟩
  | AllResult.rejected => ⟨AllResult.resolved, true, false⟩
  | AllResult.pending => ⟨AllResult.pending, false, false⟩

/-- What the DOMContentLoaded startup handler does (main.js lines 207-210):
`await assetLoader.loadAllAssets(); window.game = new HorseTycoon();`.
`HorseTycoon`'s constructor builds the UIController, so UI construction runs
exactly when the awaited call settles (which, per `loadAllAssetsObs`, happens
even after an asset failure). -/
structure StartupObs where
  uiConstructed : Bool
  errorShownOnLoadingText : Bool
deriving DecidableEq

/-- Observable outcome of the startup handler. -/
def startupHandler (rs : List LoadResult) : StartupObs :=
  match loadAllAssetsObs rs with
  | ⟨AllResult.resolved, err, _⟩ => ⟨true, err⟩
  | ⟨AllResult.rejected, err, _⟩ => ⟨false, err⟩
  | ⟨AllResult.pending, err, _⟩ => ⟨false, err⟩

/-- The first event the audio element fires for one catalog entry. -/
inductive SoundEvent
  | canplaythrough
  | error
deriving DecidableEq

/-- Settlement of one `loadSound(path)` promise (assetLoader.js lines 51-67)
as a function of the first audio event and the millisecond time at which it
fires. The code registers only `oncanplaythrough` (resolve) and `onerror`
(reject) and sets no timer, so the result ignores the time entirely and an
entry with no event never settles. -/
def loadSoundAt : Option (SoundEvent × Nat) → LoadResult
  | some (SoundEvent.canplaythrough, _) => LoadResult.resolved
  | some (SoundEvent.error, _) => LoadResult.rejected
  | none => LoadResult.pending

/-- The percentage computed by `updateLoadingProgress` (assetLoader.js line
70): JS `Math.floor((loadedAssets / totalAssets) * 100)`. For
`totalAssets = 0` the JS division `0 / 0` is `NaN` and so is the displayed
value; that case is modelled as `none`. -/
def progressPercent (loaded total : Nat) : Option Nat :=
  if total = 0 then none else some (loaded * 100 / total)

/-- Helper for `progressReports`: walks the settlement events in time order;
`loadSound` increments `loadedAssets` and calls `updateLoadingProgress` only
on a success event (assetLoader.js lines 56-60), failures report nothing. -/
def progressReportsAux (total : Nat) : Nat → List Bool → List (Option Nat)
  | _, [] => []
  | loaded, success :: rest =>
    if success then
      progressPercent (loaded + 1) total :: progressReportsAux total (loaded + 1) rest
    else progressReportsAux total loaded rest

/-- The sequence of progress values shown by `updateLoadingProgress`, given
the per-entry settlement events `(entry index, success?)` in time order. -/
def progressReports (total : Nat) (arrivals : List (Nat × Bool)) : List (Option Nat) :=
  progressReportsAux total 0 (arrivals.map (fun p => p.2))

/-- The value of the `loadedAssets` counter after the first `t` settlement
events: it is incremented once per success event (assetLoader.js line 57). -/
def loadedAt (arrivals : List (Nat × Bool)) (t : Nat) : Nat :=
  ((arrivals.take t).filter (fun p => p.2)).length

/- ===================== Game loop (main.js) ===================== -/

/-- Tick period of `setupGameLoop` (main.js line 43). -/
def tickPeriodMs : Nat := 1000

/-- Result of one firing of the `setInterval` callback in `setupGameLoop`
(main.js lines 38-44). -/
inductive TickResult
  | completed (warnedUI : Bool)
  | threwUncaught
deriving DecidableEq

/-- One tick of the game loop: the callback runs `gameManager.update()` with
no try/catch around it, then `this.updateUI()`, whose whole body sits inside
try/catch with `console.warn` (main.js lines 163-203). So an exception from
the domain update escapes the callback uncaught (skipping the UI refresh),
while an exception inside the UI refresh is caught and logged as a warning. -/
def gameLoopTick (updateThrows refreshThrows : Bool) : TickResult :=
  if updateThrows then TickResult.threwUncaught
  else TickResult.completed refreshThrows

/-- Whether the tick's exception (if any) was caught inside the tick. -/
def caughtWithinTick : TickResult → Bool
  | TickResult.completed _ => true
  | TickResult.threwUncaught => false

/-- A run of the interval scheduler over a sequence of ticks, each described
by (updateThrows, refreshThrows). Browser `setInterval` keeps firing on
schedule even after an uncaught exception in a callback, so every scheduled
tick produces a result. -/
def gameLoopRun (ticks : List (Bool × Bool)) : List TickResult :=
  ticks.map (fun p => gameLoopTick p.1 p.2)

/- ===================== Event-binding retry scheduler ===================== -/

/-- One queued binding attempt (part_000, retryQueue entries). -/
structure BindEntry where
  selector : String
  eventKind : String
deriving DecidableEq

/-- `maxRetries` (part_000 line 268). -/
def maxRetries : Nat := 5

/-- Interval of the retry `setInterval` (part_000 line 295). -/
def retryIntervalMs : Nat := 1000

/-- One scheduler round (part_000 lines 275-284): every still-queued entry is
retried; `avail r e` tells whether binding entry `e` succeeds at round `r`;
entries that succeed are spliced out, the rest stay in order. -/
def retryStep (avail : Nat → BindEntry → Bool) (r : Nat) (q : List BindEntry) :
    List BindEntry :=
  q.filter (fun e => !avail r e)

/-- The rounds actually fired by the scheduler, as (round number, queue as
retried in that round). The interval is cleared once the queue empties or the
round counter reaches the budget (part_000 lines 287-294), so the recursion is
bounded by the remaining fuel. -/
def retryTraceAux (avail : Nat → BindEntry → Bool) :
    Nat → Nat → List BindEntry → List (Nat × List BindEntry)
  | _, 0, _ => []
  | r, fuel + 1, q =>
    if q = [] then []
    else (r, q) :: retryTraceAux avail (r + 1) fuel (retryStep avail r q)

/-- Trace of the scheduler started on queue `q` (rounds numbered from 1). -/
def retryTrace (avail : Nat → BindEntry → Bool) (q : List BindEntry) :
    List (Nat × List BindEntry) :=
  retryTraceAux avail 1 maxRetries q

/-- The queue left when the scheduler stops. -/
def retryFinalAux (avail : Nat → BindEntry → Bool) :
    Nat → Nat → List BindEntry → List BindEntry
  | _, 0, q => q
  | r, fuel + 1, q =>
    if q = [] then q
    else retryFinalAux avail (r + 1) fuel (retryStep avail r q)

/-- The entries still queued when the scheduler stops; these are never
retried again (the interval is cleared). -/
def retryFinalQueue (avail : Nat → BindEntry → Bool) (q : List BindEntry) :
    List BindEntry :=
  retryFinalAux avail 1 maxRetries q

/-- Final report of the scheduler (part_000 lines 289-293): a `console.warn`
when entries remain (non-fatal, the application continues), a success log
otherwise. Neither path raises. -/
inductive RetryReport
  | allBound
  | droppedNonFatal (dropped : List BindEntry)
deriving DecidableEq

/-- The report emitted when the interval is cleared. -/
def retryReport (avail : Nat → BindEntry → Bool) (q : List BindEntry) : RetryReport :=
  if retryFinalQueue avail q = [] then RetryReport.allBound
  else RetryReport.droppedNonFatal (retryFinalQueue avail q)

/-- Concrete availability schedule used to instantiate the retry theorems:
the target appears at round 2. -/
def availW : Nat → BindEntry → Bool := fun r _ => decide (2 ≤ r)

/-- Concrete queued entry used to instantiate the retry theorems. -/
def entryW : BindEntry := ⟨"startGameBtn", "click"⟩

/- ===================== UIController (uiController.js) ===================== -/

/-- Display styles of the four screen elements held in `this.screens`
(uiController.js lines 33-38: the registry has exactly the keys `loading`,
`mainMenu`, `playerSetup`, `gameUI`); `none` means the element was absent
from the document, `some d` holds its current display style. -/
structure ScreenMap where
  loading : Option String
  mainMenu : Option String
  playerSetup : Option String
  gameUI : Option String
deriving DecidableEq

/-- The mutable state `showScreen` touches: the screen registry and
`this.currentScreen`. -/
structure UIState where
  screens : ScreenMap
  currentScreen : String
deriving DecidableEq

/-- `this.screens[screenId]` lookup: keys other than the four fixed ids give
undefined, a registered-but-missing element gives null; both are falsy. -/
def getScreen (m : ScreenMap) (id : String) : Option String :=
  if id = "loading" then m.loading
  else if id = "mainMenu" then m.mainMenu
  else if id = "playerSetup" then m.playerSetup
  else if id = "gameUI" then m.gameUI
  else none

/-- Set one element's display style to `"none"` if the element exists. -/
def hideOne (o : Option String) : Option String := o.map (fun _ => "none")

/-- The hide-all loop of `showScreen` (uiController.js lines 172-174): every
non-null registry entry gets display `"none"`. -/
def hideAllScreens (m : ScreenMap) : ScreenMap :=
  ⟨hideOne m.loading, hideOne m.mainMenu, hideOne m.playerSetup, hideOne m.gameUI⟩

/-- `this.screens[screenId].style.display = 'block'` for the named entry. -/
def setScreenBlock (m : ScreenMap) (id : String) : ScreenMap :=
  if id = "loading" then { m with loading := some "block" }
  else if id = "mainMenu" then { m with mainMenu := some "block" }
  else if id = "playerSetup" then { m with playerSetup := some "block" }
  else if id = "gameUI" then { m with gameUI := some "block" }
  else m

/-- `UIController.showScreen` (uiController.js lines 168-181): if the named
screen exists, hide all screens, show it and record it as current; otherwise
only `console.warn`, with no mutation. -/
def showScreenJS (st : UIState) (id : String) : UIState :=
  if (getScreen st.screens id).isSome then
    ⟨setScreenBlock (hideAllScreens st.screens) id, id⟩
  else st

/-- A screen element is visible when its display style is not `"none"`. -/
def visibleB (o : Option String) : Bool :=
  match o with
  | some d => !(d == "none")
  | none => false

/-- Number of visible screens in the registry. -/
def visibleCount (m : ScreenMap) : Nat :=
  (if visibleB m.loading then 1 else 0) + (if visibleB m.mainMenu then 1 else 0) +
    (if visibleB m.playerSetup then 1 else 0) + (if visibleB m.gameUI then 1 else 0)

/-- All four screen elements were found in the document. -/
def allPresent (m : ScreenMap) : Bool :=
  m.loading.isSome && m.mainMenu.isSome && m.playerSetup.isSome && m.gameUI.isSome

/-- Screen-registry invariant: all four elements present and exactly one
visible. -/
def uiInv (st : UIState) : Bool :=
  allPresent st.screens && (visibleCount st.screens == 1)

/-- The screen posture right after initialization: `initializeScreens` in
src/unnamed/part_000 (lines 111-141) requires all four screen elements to be
present (it throws otherwise), hides every one of them and then shows the
loading screen; the constructor sets `currentScreen` to `'loading'`. -/
def initUIState : UIState :=
  ⟨⟨some "block", some "none", some "none", some "none"⟩, "loading"⟩

/-- A sequence of `showScreen` calls applied in order. -/
def applyCalls (st : UIState) (calls : List String) : UIState :=
  calls.foldl showScreenJS st

/-- States reachable from the initialized posture by `showScreen` calls. -/
def ReachableUI (st : UIState) : Prop :=
  ∃ calls : List String, st = applyCalls initUIState calls

/- ===================== UIController (part_000) ===================== -/

/-- State of the part_000 UIController relevant to `showScreen`: the `ready`
flag, the four screen display styles and `currentScreen`. -/
structure Part000State where
  ready : Bool
  loading : Option String
  mainMenu : Option String
  playerSetup : Option String
  gameUI : Option String
  currentScreen : String
deriving DecidableEq

/-- How a `showScreen` call in part_000 concludes. -/
inductive ShowScreenOutcome
  | notReadyError
  | screenNotFound
  | shown
deriving DecidableEq

/-- Screen lookup for the part_000 registry (same four fixed keys). -/
def part000GetScreen (st : Part000State) (id : String) : Option String :=
  if id = "loading" then st.loading
  else if id = "mainMenu" then st.mainMenu
  else if id = "playerSetup" then st.playerSetup
  else if id = "gameUI" then st.gameUI
  else none

/-- Hide every registered screen (part_000 lines 384-386). -/
def part000HideAll (st : Part000State) : Part000State :=
  { st with loading := st.loading.map (fun _ => "none"),
            mainMenu := st.mainMenu.map (fun _ => "none"),
            playerSetup := st.playerSetup.map (fun _ => "none"),
            gameUI := st.gameUI.map (fun _ => "none") }

/-- Show the named screen. -/
def part000SetBlock (st : Part000State) (id : String) : Part000State :=
  if id = "loading" then { st with loading := some "block" }
  else if id = "mainMenu" then { st with mainMenu := some "block" }
  else if id = "playerSetup" then { st with playerSetup := some "block" }
  else if id = "gameUI" then { st with gameUI := some "block" }
  else st

/-- `UIController.showScreen` from src/unnamed/part_000 (lines 372-398): it
first throws `'UI Controller not ready. Cannot show screen.'` when `ready` is
false, then `'Screen not found'` for an unknown or missing screen; both
throws happen before any display mutation and are caught by the surrounding
catch, which only logs and calls `showError` (whose `showModal` call returns
early while not ready, touching no screen). On success it hides all screens,
shows the named one, and sets `currentScreen` (the subsequent
`handleScreenChange` touches inputs and text, not screen visibility). -/
def part000ShowScreen (st : Part000State) (id : String) :
    Part000State × ShowScreenOutcome :=
  if st.ready = false then (st, ShowScreenOutcome.notReadyError)
  else if (part000GetScreen st id).isSome then
    ({ part000SetBlock (part000HideAll st) id with currentScreen := id },
      ShowScreenOutcome.shown)
  else (st, ShowScreenOutcome.screenNotFound)

/-- Concrete not-ready controller state used to instantiate the theorems. -/
def stNotReady : Part000State :=
  ⟨false, some "block", some "none", some "none", some "none", "loading"⟩

/- ===================== handleGameStart (part_000) ===================== -/

/-- How a `handleGameStart` call concludes (part_000 lines 459-485):
missing input elements are warned about and the handler returns; empty values
go through `showError('Please fill in all fields')` and the handler returns;
otherwise `startNewGame` is called and `showScreen('gameUI')` follows. -/
inductive StartOutcome
  | inputsMissing
  | emptyFields
  | started
deriving DecidableEq

/-- Effects of one `handleGameStart` call. -/
structure GameStartEffects where
  outcome : StartOutcome
  startNewGameCalled : Bool
  showScreenCalledWith : Option String
deriving DecidableEq

/-- `UIController.handleGameStart` (part_000 lines 459-485). The arguments
are `document.getElementById('playerName')` and `('stableName')`, where
`none` is a missing element and `some v` an input whose `value` is `v`; the
JS emptiness test `!playerName` holds exactly for the empty string. -/
def handleGameStart (playerNameInput stableNameInput : Option String) :
    GameStartEffects :=
  match playerNameInput, stableNameInput with
  | some p, some s =>
    if p = "" ∨ s = "" then ⟨StartOutcome.emptyFields, false, none⟩
    else ⟨StartOutcome.started, true, some "gameUI"⟩
  | _, _ => ⟨StartOutcome.inputsMissing, false, none⟩

/-- Whether the outcome reports an error to the user or the console. -/
def reportsError : StartOutcome → Bool
  | StartOutcome.inputsMissing => true
  | StartOutcome.emptyFields => true
  | StartOutcome.started => false

/- ===================== Helper lemmas ===================== -/

theorem retryTraceAux_length (avail : Nat → BindEntry → Bool) :
    ∀ fuel r q, (retryTraceAux avail r fuel q).length ≤ fuel := by
  intro fuel
  induction fuel with
  | zero => intro r q; simp [retryTraceAux]
  | succ n ih =>
    intro r q
    by_cases h : q = []
    · simp [retryTraceAux, h]
    · simp only [retryTraceAux, if_neg h, List.length_cons]
      exact Nat.succ_le_succ (ih (r + 1) (retryStep avail r q))

theorem retryTraceAux_round_ge (avail : Nat → BindEntry → Bool) :
    ∀ fuel r q p, p ∈ retryTraceAux avail r fuel q → r ≤ p.1 := by
  intro fuel
  induction fuel with
  | zero => intro r q p h; simp [retryTraceAux] at h
  | succ n ih =>
    intro r q p h
    by_cases hq : q = []
    · simp [retryTraceAux, hq] at h
    · simp only [retryTraceAux, if_neg hq, List.mem_cons] at h
      rcases h with h | h
      · subst h; exact Nat.le_refl r
      · exact Nat.le_trans (Nat.le_succ r) (ih (r + 1) (retryStep avail r q) p h)

theorem retryTraceAux_subset (avail : Nat → BindEntry → Bool) :
    ∀ fuel r q p, p ∈ retryTraceAux avail r fuel q → ∀ e, e ∈ p.2 → e ∈ q := by
  intro fuel
  induction fuel with
  | zero => intro r q p h; simp [retryTraceAux] at h
  | succ n ih =>
    intro r q p h e he
    by_cases hq : q = []
    · simp [retryTraceAux, hq] at h
    · simp only [retryTraceAux, if_neg hq, List.mem_cons] at h
      rcases h with h | h
      · subst h; exact he
      · have := ih (r + 1) (retryStep avail r q) p h e he
        exact (List.mem_filter.mp this).1

theorem retryFinalAux_subset (avail : Nat → BindEntry → Bool) :
    ∀ fuel r q e, e ∈ retryFinalAux avail r fuel q → e ∈ q := by
  intro fuel
  induction fuel with
  | zero => intro r q e h; simpa [retryFinalAux] using h
  | succ n ih =>
    intro r q e h
    by_cases hq : q = []
    · simp [retryFinalAux, hq] at h
    · simp only [retryFinalAux, if_neg hq] at h
      have := ih (r + 1) (retryStep avail r q) e h
      exact (List.mem_filter.mp this).1

theorem retry_removed (avail : Nat → BindEntry → Bool) :
    ∀ fuel r q e r1 q1,
      (r1, q1) ∈ retryTraceAux avail r fuel q → e ∈ q1 → avail r1 e = true →
      (∀ r2 q2, (r2, q2) ∈ retryTraceAux avail r fuel q → r1 < r2 → e ∉ q2) ∧
        e ∉ retryFinalAux avail r fuel q := by
  intro fuel
  induction fuel with
  | zero => intro r q e r1 q1 h; simp [retryTraceAux] at h
  | succ n ih =>
    intro r q e r1 q1 h1 he ha
    by_cases hq : q = []
    · simp [retryTraceAux, hq] at h1
    · simp only [retryTraceAux, if_neg hq, List.mem_cons, Prod.mk.injEq] at h1
      rcases h1 with ⟨hr, hqq⟩ | h1
      · subst hr; subst hqq
        have hnot : e ∉ retryStep avail r1 q1 := by
          intro hmem
          have := (List.mem_filter.mp hmem).2
          simp [ha] at this
        constructor
        · intro r2 q2 h2 hlt hmem
          simp only [retryTraceAux, if_neg hq, List.mem_cons, Prod.mk.injEq] at h2
          rcases h2 with ⟨hr2, _⟩ | h2
          · omega
          · exact hnot (retryTraceAux_subset avail n (r1 + 1)
              (retryStep avail r1 q1) (r2, q2) h2 e hmem)
        · intro hmem
          simp only [retryFinalAux, if_neg hq] at hmem
          exact hnot (retryFinalAux_subset avail n (r1 + 1)
            (retryStep avail r1 q1) e hmem)
      · have hge := retryTraceAux_round_ge avail n (r + 1) (retryStep avail r q) (r1, q1) h1
        have ihh := ih (r + 1) (retryStep avail r q) e r1 q1 h1 he ha
        constructor
        · intro r2 q2 h2 hlt hmem
          simp only [retryTraceAux, if_neg hq, List.mem_cons, Prod.mk.injEq] at h2
          rcases h2 with ⟨hr2, _⟩ | h2
          · simp only at hge; omega
          · exact ihh.1 r2 q2 h2 hlt hmem
        · intro hmem
          simp only [retryFinalAux, if_neg hq] at hmem
          exact ihh.2 hmem

theorem loadedAt_mono (arrivals : List (Nat × Bool)) :
    ∀ t1 t2, t1 ≤ t2 → loadedAt arrivals t1 ≤ loadedAt arrivals t2 := by
  induction arrivals with
  | nil => intro t1 t2 h; simp [loadedAt]
  | cons a l ih =>
    intro t1 t2 h
    cases t1 with
    | zero => simp [loadedAt]
    | succ s1 =>
      cases t2 with
      | zero => omega
      | succ s2 =>
        have hs : s1 ≤ s2 := by omega
        have := ih s1 s2 hs
        by_cases hp : a.2 = true <;>
          simp only [loadedAt, List.take_succ_cons, List.filter_cons, hp,
            if_true, if_false, List.length_cons, Bool.false_eq_true] at * <;>
          omega

theorem nodup_lt_length_le (l : List Nat) (n : Nat) (hd : l.Nodup)
    (hb : ∀ x ∈ l, x < n) : l.length ≤ n := by
  classical
  have h1 : l.toFinset.card = l.length := List.toFinset_card_of_nodup hd
  have h2 : l.toFinset ⊆ Finset.range n := by
    intro x hx
    exact Finset.mem_range.mpr (hb x (List.mem_toFinset.mp hx))
  have h3 := Finset.card_le_card h2
  rw [h1, Finset.card_range] at h3
  exact h3

theorem loadedAt_le_total (total : Nat) (arrivals : List (Nat × Bool))
    (hd : (arrivals.map Prod.fst).Nodup)
    (hb : ∀ i ∈ arrivals.map Prod.fst, i < total) (t : Nat) :
    loadedAt arrivals t ≤ total := by
  have h1 : loadedAt arrivals t ≤ (arrivals.take t).length :=
    List.length_filter_le _ _
  have h2 : (arrivals.take t).length ≤ arrivals.length := by
    simp [List.length_take]
  have h3 : (arrivals.map Prod.fst).length ≤ total :=
    nodup_lt_length_le (arrivals.map Prod.fst) total hd hb
  simp only [List.length_map] at h3
  omega

theorem uiInv_showScreen (st : UIState) (id : String) (h : uiInv st = true) :
    uiInv (showScreenJS st id) = true := by
  obtain ⟨⟨l, m, p, g⟩, cs⟩ := st
  have hpres : allPresent ⟨l, m, p, g⟩ = true := by
    simp only [uiInv, Bool.and_eq_true] at h
    exact h.1
  rcases l with _ | dl
  · simp [allPresent] at hpres
  rcases m with _ | dm
  · simp [allPresent] at hpres
  rcases p with _ | dp
  · simp [allPresent] at hpres
  rcases g with _ | dg
  · simp [allPresent] at hpres
  by_cases h1 : id = "loading"
  · subst h1
    simp [showScreenJS, getScreen, setScreenBlock, hideAllScreens, hideOne,
      uiInv, allPresent, visibleCount, visibleB]
  · by_cases h2 : id = "mainMenu"
    · subst h2
      simp [showScreenJS, getScreen, setScreenBlock, hideAllScreens, hideOne,
        uiInv, allPresent, visibleCount, visibleB]
    · by_cases h3 : id = "playerSetup"
      · subst h3
        simp [showScreenJS, getScreen, setScreenBlock, hideAllScreens, hideOne,
          uiInv, allPresent, visibleCount, visibleB]
      · by_cases h4 : id = "gameUI"
        · subst h4
          simp [showScreenJS, getScreen, setScreenBlock, hideAllScreens, hideOne,
            uiInv, allPresent, visibleCount, visibleB]
        · simpa [showScreenJS, getScreen, h1, h2, h3, h4] using h

theorem uiInv_applyCalls (calls : List String) :
    ∀ st : UIState, uiInv st = true → uiInv (applyCalls st calls) = true := by
  induction calls with
  | nil => intro st h; simpa [applyCalls] using h
  | cons c cs ih =>
    intro st h
    have : applyCalls st (c :: cs) = applyCalls (showScreenJS st c) cs := by
      simp [applyCalls]
    rw [this]
    exact ih (showScreenJS st c) (uiInv_showScreen st c h)

theorem reachable_uiInv (st : UIState) (h : ReachableUI st) : uiInv st = true := by
  obtain ⟨calls, rfl⟩ := h
  exact uiInv_applyCalls calls initUIState (by decide)

/- ===================== Claim theorems ===================== -/

/-- C1 counterexample: with a catalog where the first entry has failed and
another is still pending, the caller of `loadAllAssets` observes a resolved
promise, not the rejection the claim states (the catch block in
assetLoader.js lines 43-48 swallows the failure). -/
theorem C1_counterexample :
    LoadResult.rejected ∈ [LoadResult.rejected, LoadResult.pending] ∧
    (loadAllAssetsObs [LoadResult.rejected, LoadResult.pending]).settled =
      AllResult.resolved ∧
    ¬ AllResult.resolved = AllResult.rejected := by
  decide

/-- C1 (amended): the inner `Promise.all` resolves exactly when every entry
resolved and rejects as soon as any entry fails, even while others are still
pending; but `loadAllAssets` catches that rejection, displays the error via
the loading text, and from its caller's view never rejects. -/
theorem C1_amended_loadAll (rs : List LoadResult) :
    (promiseAll rs = AllResult.resolved ↔ ∀ r ∈ rs, r = LoadResult.resolved) ∧
    (LoadResult.rejected ∈ rs → promiseAll rs = AllResult.rejected) ∧
    (¬ (loadAllAssetsObs rs).settled = AllResult.rejected) ∧
    (promiseAll rs = AllResult.rejected →
      (loadAllAssetsObs rs).settled = AllResult.resolved ∧
        (loadAllAssetsObs rs).errorDisplayed = true) := by
  refine ⟨?_, ?_, ?_, ?_⟩
  · constructor
    · intro h r hr
      by_cases h1 : LoadResult.rejected ∈ rs
      · simp [promiseAll, h1] at h
      · by_cases h2 : LoadResult.pending ∈ rs
        · simp [promiseAll, h1, h2] at h
        · cases r with
          | resolved => rfl
          | rejected => exact absurd hr h1
          | pending => exact absurd hr h2
    · intro h
      have h1 : LoadResult.rejected ∉ rs := by
        intro hm
        have := h LoadResult.rejected hm
        simp at this
      have h2 : LoadResult.pending ∉ rs := by
        intro hm
        have := h LoadResult.pending hm
        simp at this
      simp [promiseAll, h1, h2]
  · intro h
    simp [promiseAll, h]
  · cases hp : promiseAll rs <;> simp [loadAllAssetsObs, hp]
  · intro h
    simp [loadAllAssetsObs, h]

/-- C1 amended claim instantiated: a failed entry with another still pending
leads the caller to observe resolution with the error shown on the loading
text. -/
theorem C1_amended_witness :
    (loadAllAssetsObs [LoadResult.rejected, LoadResult.pending]).settled =
      AllResult.resolved ∧
    (loadAllAssetsObs [LoadResult.rejected, LoadResult.pending]).errorDisplayed =
      true :=
  (C1_amended_loadAll [LoadResult.rejected, LoadResult.pending]).2.2.2 (by decide)

/-- C2 counterexample: with an asset failure in the catalog, the startup
handler still constructs `HorseTycoon` (and hence the UIController), because
`await assetLoader.loadAllAssets()` settles successfully (main.js lines
207-210); the claim states no UI initialization runs after a failure. -/
theorem C2_counterexample :
    LoadResult.rejected ∈ [LoadResult.rejected, LoadResult.resolved] ∧
    (startupHandler [LoadResult.rejected, LoadResult.resolved]).uiConstructed =
      true := by
  decide

/-- C2 (amended): when any asset fails during preload, the error is caught
inside `loadAllAssets` and shown on the loading text, the awaited call
resolves, and the startup handler proceeds to construct HorseTycoon and the
UIController anyway; no Failed state and no abort exist in the code. -/
theorem C2_amended_startup (rs : List LoadResult)
    (h : LoadResult.rejected ∈ rs) :
    (startupHandler rs).errorShownOnLoadingText = true ∧
    (startupHandler rs).uiConstructed = true := by
  have hp : promiseAll rs = AllResult.rejected := by simp [promiseAll, h]
  simp [startupHandler, loadAllAssetsObs, hp]

/-- C2 amended claim instantiated at a concrete failing catalog. -/
theorem C2_witness :
    (startupHandler [LoadResult.resolved, LoadResult.rejected]).errorShownOnLoadingText
        = true ∧
    (startupHandler [LoadResult.resolved, LoadResult.rejected]).uiConstructed =
      true :=
  C2_amended_startup [LoadResult.resolved, LoadResult.rejected] (by decide)

/-- C3: a `showScreen` call on the part_000 controller while `ready` is false
takes the not-ready error path and leaves the whole state — every screen's
display style and `currentScreen` — unchanged. -/
theorem C3_showScreen_notReady (st : Part000State) (id : String)
    (h : st.ready = false) :
    part000ShowScreen st id = (st, ShowScreenOutcome.notReadyError) := by
  simp [part000ShowScreen, h]

/-- C3 instantiated at a concrete not-ready state. -/
theorem C3_witness :
    stNotReady.ready = false ∧
    part000ShowScreen stNotReady "gameUI" = (stNotReady, ShowScreenOutcome.notReadyError) :=
  ⟨rfl, C3_showScreen_notReady stNotReady "gameUI" rfl⟩

/-- C4: the retry scheduler (part_000 lines 264-296) fires at a fixed
1-second interval for at most `maxRetries = 5` rounds; on each fired round
the whole still-queued list is retried; an entry that succeeds at its round is
absent from every later round's queue and from the final (dropped) queue; and
when the scheduler stops, remaining entries are reported non-fatally
(`droppedNonFatal`) while an emptied queue reports `allBound` — neither path
raises, so the application continues. -/
theorem C4_retry_scheduler (avail : Nat → BindEntry → Bool) (q : List BindEntry) :
    retryIntervalMs = 1000 ∧
    (retryTrace avail q).length ≤ maxRetries ∧
    (∀ r1 q1 e, (r1, q1) ∈ retryTrace avail q → e ∈ q1 → avail r1 e = true →
      (∀ r2 q2, (r2, q2) ∈ retryTrace avail q → r1 < r2 → e ∉ q2) ∧
        e ∉ retryFinalQueue avail q) ∧
    (retryFinalQueue avail q = [] → retryReport avail q = RetryReport.allBound) ∧
    (¬ retryFinalQueue avail q = [] →
      retryReport avail q = RetryReport.droppedNonFatal (retryFinalQueue avail q)) := by
  refine ⟨rfl, retryTraceAux_length avail maxRetries 1 q, ?_, ?_, ?_⟩
  · intro r1 q1 e h1 he ha
    exact retry_removed avail maxRetries 1 q e r1 q1 h1 he ha
  · intro h
    simp [retryReport, h]
  · intro h
    simp [retryReport, h]

/-- C4 instantiated: a single queued entry whose target appears at round 2 is
bound then, and is not among the dropped entries. -/
theorem C4_retry_witness :
    availW 2 entryW = true ∧ entryW ∉ retryFinalQueue availW [entryW] := by
  refine ⟨by decide, ?_⟩
  exact ((C4_retry_scheduler availW [entryW]).2.2.1 2 [entryW] entryW
    (by decide) (by decide) (by decide)).2

/-- C5: in every state reachable from the initialized screen posture by
`showScreen` calls, at most one screen is visible; and calling
`showScreen('gameUI')` twice in a row from such a state leaves exactly one
screen visible. -/
theorem C5_one_visible (st : UIState) (h : ReachableUI st) :
    visibleCount st.screens ≤ 1 ∧
    visibleCount ((showScreenJS (showScreenJS st "gameUI") "gameUI").screens) = 1 := by
  have h1 := reachable_uiInv st h
  have h2 := uiInv_showScreen st "gameUI" h1
  have h3 := uiInv_showScreen (showScreenJS st "gameUI") "gameUI" h2
  constructor
  · simp only [uiInv, Bool.and_eq_true, beq_iff_eq] at h1
    omega
  · simp only [uiInv, Bool.and_eq_true, beq_iff_eq] at h3
    exact h3.2

/-- C5 instantiated at the state reached by one `showScreen('playerSetup')`
call after initialization. -/
theorem C5_witness :
    ReachableUI (applyCalls initUIState ["playerSetup"]) ∧
    visibleCount ((showScreenJS (showScreenJS
      (applyCalls initUIState ["playerSetup"]) "gameUI") "gameUI").screens) = 1 :=
  ⟨⟨["playerSetup"], rfl⟩,
    (C5_one_visible (applyCalls initUIState ["playerSetup"])
      ⟨["playerSetup"], rfl⟩).2⟩

/-- C6 counterexample: an entry whose audio element never fires any event
stays pending forever instead of settling as Failed — `loadSound` registers
no timer (assetLoader.js lines 51-67) — and an entry whose success event
arrives long after the claimed 10-second budget still resolves. -/
theorem C6_counterexample :
    loadSoundAt none = LoadResult.pending ∧
    ¬ loadSoundAt none = LoadResult.rejected ∧
    loadSoundAt (some (SoundEvent.canplaythrough, 999999)) = LoadResult.resolved := by
  decide

/-- C6 (amended): there is no timeout: an entry settles Failed exactly on an
error event and successful exactly on canplaythrough, independent of the time
at which the event fires, and an entry with no event never settles. -/
theorem C6_amended_noTimeout (e : SoundEvent) (t1 t2 : Nat) :
    loadSoundAt none = LoadResult.pending ∧
    loadSoundAt (some (SoundEvent.error, t1)) = LoadResult.rejected ∧
    loadSoundAt (some (SoundEvent.canplaythrough, t1)) = LoadResult.resolved ∧
    loadSoundAt (some (e, t1)) = loadSoundAt (some (e, t2)) := by
  cases e <;> exact ⟨rfl, rfl, rfl, rfl⟩

/-- C7 counterexample: for an empty catalog the aggregate resolves, but no
progress is reported at all (`updateLoadingProgress` runs only per successful
entry), and the progress formula at 0/0 yields NaN (`none`), not 100%. -/
theorem C7_counterexample :
    (loadAllAssetsObs []).settled = AllResult.resolved ∧
    progressReports 0 [] = [] ∧
    progressPercent 0 0 = none ∧
    ¬ progressPercent 0 0 = some 100 := by
  decide

/-- C7 (amended): the catalog is a fixed 8-entry list, so `loadAllAssets`
never runs on an empty catalog; hypothetically with an empty list the
aggregate resolves immediately and the main menu is shown, but no progress
report is emitted and the 0/0 percentage is NaN rather than 100%. -/
theorem C7_amended_emptyCatalog :
    soundFiles.length = 8 ∧
    loadAllAssetsObs [] = ⟨AllResult.resolved, false, true⟩ ∧
    progressReports 0 [] = [] ∧
    progressPercent 0 0 = none := by
  decide

/-- C8 counterexample: an exception thrown by `gameManager.update()` escapes
the tick callback uncaught (main.js lines 38-44 have no try/catch around it),
contradicting the claim that any tick exception is caught within the tick;
the interval still fires the next tick. -/
theorem C8_counterexample :
    caughtWithinTick (gameLoopTick true false) = false ∧
    gameLoopRun [(true, false), (false, false)] =
      [TickResult.threwUncaught, TickResult.completed false] := by
  decide

/-- C8 (amended): the scheduler fires every scheduled 1-second tick
regardless of earlier outcomes; an exception inside the UI refresh is caught
within the tick and logged as a warning, while an exception from the domain
update escapes the tick callback uncaught (the UI refresh of that tick is
skipped). -/
theorem C8_amended_tickErrors (ticks : List (Bool × Bool)) (u r : Bool) :
    tickPeriodMs = 1000 ∧
    (gameLoopRun ticks).length = ticks.length ∧
    gameLoopTick false r = TickResult.completed r ∧
    caughtWithinTick (gameLoopTick false r) = true ∧
    gameLoopTick true u = TickResult.threwUncaught ∧
    caughtWithinTick (gameLoopTick true u) = false := by
  refine ⟨rfl, by simp [gameLoopRun], ?_, ?_, rfl, rfl⟩ <;>
    simp [gameLoopTick, caughtWithinTick]

/-- C9: across the settlement events of distinct catalog entries, the
`loadedAssets` counter is monotonically nondecreasing and never exceeds the
catalog size, so `loadedAssets ≤ totalAssets` holds after every progress
update (which fires right after each increment). -/
theorem C9_progress_monotone_bounded (total : Nat)
    (arrivals : List (Nat × Bool))
    (hd : (arrivals.map Prod.fst).Nodup)
    (hb : ∀ i ∈ arrivals.map Prod.fst, i < total) :
    (∀ t1 t2, t1 ≤ t2 → loadedAt arrivals t1 ≤ loadedAt arrivals t2) ∧
    (∀ t, loadedAt arrivals t ≤ total) :=
  ⟨fun t1 t2 h => loadedAt_mono arrivals t1 t2 h,
    fun t => loadedAt_le_total total arrivals hd hb t⟩

/-- C9 instantiated: two distinct entries of a 2-entry catalog, the first
succeeding and the second failing. -/
theorem C9_witness :
    loadedAt [(0, true), (1, false)] 1 ≤ loadedAt [(0, true), (1, false)] 2 ∧
    loadedAt [(0, true), (1, false)] 2 ≤ 2 :=
  ⟨(C9_progress_monotone_bounded 2 [(0, true), (1, false)] (by decide)
      (by decide)).1 1 2 (by decide),
    (C9_progress_monotone_bounded 2 [(0, true), (1, false)] (by decide)
      (by decide)).2 2⟩

/-- C10: whenever the player-name or stable-name input is absent or holds the
empty string, `handleGameStart` reports an error (a console warning or
`showError`), does not call `startNewGame`, and does not call `showScreen`,
so the visible screen is unchanged. -/
theorem C10_gameStart_guard (pIn sIn : Option String)
    (h : pIn = none ∨ sIn = none ∨ pIn = some "" ∨ sIn = some "") :
    reportsError (handleGameStart pIn sIn).outcome = true ∧
    (handleGameStart pIn sIn).startNewGameCalled = false ∧
    (handleGameStart pIn sIn).showScreenCalledWith = none := by
  rcases pIn with _ | p
  · exact ⟨rfl, rfl, rfl⟩
  · rcases sIn with _ | s
    · exact ⟨rfl, rfl, rfl⟩
    · have hps : p = "" ∨ s = "" := by
        rcases h with h | h | h | h
        · exact absurd h (by simp)
        · exact absurd h (by simp)
        · exact Or.inl (by injection h)
        · exact Or.inr (by injection h)
      simp [handleGameStart, hps, reportsError]

/-- C10 instantiated: an empty player name with a non-empty stable name. -/
theorem C10_witness :
    reportsError (handleGameStart (some "") (some "Rose Stable")).outcome = true ∧
    (handleGameStart (some "") (some "Rose Stable")).startNewGameCalled = false ∧
    (handleGameStart (some "") (some "Rose Stable")).showScreenCalledWith = none :=
  C10_gameStart_guard (some "") (some "Rose Stable") (Or.inr (Or.inr (Or.inl rfl)))
